import Mathlib

/-!
Verification of the robot actuation-and-sensing kernel of the zoombot
simulator (src/src/ursim/core.py), via a shallow embedding in Lean 4.

Machine floats are embedded as exact rationals (ℚ) where the code is pure
arithmetic, and as reals (ℝ) where trigonometry (pose composition) is
involved.  Fixed-size numpy arrays are embedded as Lean lists or as
structures with one field per slot.  Line numbers in comments refer to
src/src/ursim/core.py unless noted otherwise.
-/

/-- Constants from core.py lines 119-133. -/
def MOTOR_VEL_KP : ℚ := 100

def MOTOR_VEL_KI : ℚ := 200

def MOTOR_VEL_INT_MAX : ℚ := 1/20

def WHEEL_FORCE_MAX : ℚ := 2

def ODOM_FREQUENCY : ℕ := 4

def ODOM_NOISE_THRESHOLD_VEL : ℚ := 1/200

def WHEEL_STOPPED_THRESHOLD_VEL : ℚ := 3/20

def BUMP_DIST : ℚ := 1/1000

/-- core.py lines 939-940: `numpy.clip(quantity, -limit, limit)`. -/
def clamp_abs (quantity limit : ℚ) : ℚ :=
  min (max quantity (-limit)) limit

/-- Shift a fixed-length newest-first history one slot and store `x` in
slot 0; embeds `h[1:] = h[:-1]; h[0] = x` (core.py lines 949-950 and
957-958). -/
def shift_in (x : ℚ) (h : List ℚ) : List ℚ :=
  (x :: h).dropLast

/-- `numpy.dot` on equal-length coefficient/history vectors. -/
def dotq (a b : List ℚ) : ℚ :=
  (List.zipWith (· * ·) a b).sum

/-- core.py lines 944-960: one step of the direct-form IIR filter.  The
python mutates `inputs` and `outputs` in place and returns `output`; we
return the output together with the two updated histories. -/
def iir_filter (meas : ℚ) (inputs outputs : List ℚ) (do_filter : Bool)
    (B A : List ℚ) : ℚ × List ℚ × List ℚ :=
  let inputs2 := shift_in meas inputs
  let output := if do_filter then dotq B inputs2 - dotq A outputs else meas
  (output, inputs2, shift_in output outputs)

/-- core.py lines 1312-1315: measured odometry wheel speed.  Noise is added
only when the signed true wheel target speed strictly exceeds
ODOM_NOISE_THRESHOLD_VEL. -/
def odom_wheel_vel_meas (wheel_tgt_speed noise : ℚ) : ℚ :=
  if wheel_tgt_speed > ODOM_NOISE_THRESHOLD_VEL
  then wheel_tgt_speed + noise
  else wheel_tgt_speed

/-- Per-wheel controller state: `wheel_vel_integrator[idx]` and
`wheel_stopped_count[idx]` (core.py lines 997, 999). -/
structure WheelCtrl where
  integrator : ℚ
  stoppedCount : ℕ
  deriving DecidableEq, Repr

/-- core.py lines 1317-1345, one wheel: stall debounce, anti-windup
integrator (accumulate, then clamp), and the commanded (pre-filter)
voltage.  `vNominal` is the motor's nominal voltage bound `mm.V_nominal`
(the motor model itself is an external collaborator).  Returns the new
controller state and the commanded voltage `V_cmd`. -/
def controllerStep (vNominal : ℚ) (enabled : Bool)
    (desired measured dt : ℚ) (s : WheelCtrl) : WheelCtrl × ℚ :=
  let stopped : ℕ :=
    if desired = 0 ∧ |measured| < WHEEL_STOPPED_THRESHOLD_VEL
    then s.stoppedCount + 1 else 0
  let error := desired - measured
  let vel_int := clamp_abs (s.integrator + error * dt) MOTOR_VEL_INT_MAX
  let V_cmd : ℚ :=
    if enabled then
      clamp_abs (if stopped > 5 then 0
                 else MOTOR_VEL_KP * error + MOTOR_VEL_KI * vel_int) vNominal
    else 0
  (⟨vel_int, stopped⟩, V_cmd)

/-- Run the controller over a list of per-tick `(desired, measured)` input
pairs; the trace of post-update controller states, newest last. -/
def ctrlStates (vNominal : ℚ) (enabled : Bool) (dt : ℚ)
    (dm : List (ℚ × ℚ)) (s : WheelCtrl) : List WheelCtrl :=
  match dm with
  | [] => []
  | p :: rest =>
    let r := controllerStep vNominal enabled p.1 p.2 dt s
    r.1 :: ctrlStates vNominal enabled dt rest r.1

/-- Run the controller over a list of per-tick `(desired, measured)` input
pairs; the trace of commanded voltages, one per tick. -/
def ctrlVoltages (vNominal : ℚ) (enabled : Bool) (dt : ℚ)
    (dm : List (ℚ × ℚ)) (s : WheelCtrl) : List ℚ :=
  match dm with
  | [] => []
  | p :: rest =>
    let r := controllerStep vNominal enabled p.1 p.2 dt s
    r.2 :: ctrlVoltages vNominal enabled dt rest r.1

/-- Modelled from the spec: `mm.V_nominal`, the motor's nominal supply
voltage (core.py line 1341 reads it from the Motor model, whose module
`ursim/motor.py` is not under src/).  The spec (§4.2, §4.3) only requires
a positive nominal voltage range; we fix a representative value. -/
def V_nominal_spec : ℚ := 6

/-- Outcome of the wheel-ground coupling step for one wheel, core.py
lines 1368-1389. -/
structure WheelForces where
  F : ℚ
  Fclamp : ℚ
  applied : ℚ
  skid : ℚ
  torqueForceArg : ℚ
  deriving DecidableEq, Repr

/-- core.py lines 1374-1389, one wheel: the speed mismatch becomes an
impulse (half the body mass), divided by `dt` to a force `F`; the clamp
bound is `max 0 (WHEEL_FORCE_MAX + noise)`.  As written the code applies
`F` (not `Fclamp`) to the body at line 1388, records
`wheel_skid_forces = Fclamp - F` at line 1384, and feeds
`-F` (not `-Fclamp`) to `mm.motor_torque_from_wheel_tgt_force` at line
1386; `torqueForceArg` records that force argument. -/
def wheelGroundStep (mass dt wheel_tgt_speed robot_fwd_vel noise : ℚ) :
    WheelForces :=
  let vel_mismatch := wheel_tgt_speed - robot_fwd_vel
  let vel_impulse := (1/2) * vel_mismatch * mass
  let F_max := max 0 (WHEEL_FORCE_MAX + noise)
  let F := vel_impulse / dt
  let Fclamp := clamp_abs F F_max
  { F := F
    Fclamp := Fclamp
    applied := F
    skid := Fclamp - F
    torqueForceArg := -F }

/-! ## Bump sensor (core.py lines 107-113 and 1419-1461)

The code stores the sector bounds as degrees scaled by `DEG = pi/180`
(line 105) and compares them with the contact angle
`theta = arctan2(ly, lx)` in radians.  Since `DEG > 0`, the comparisons
`lo*DEG <= theta` and `theta <= hi*DEG` hold exactly when the same
comparisons hold between the degree measures, so the embedding works
directly in degrees over ℚ. -/

/-- Bump flag vector: `self.bump` has one slot per row of
BUMP_ANGLE_RANGES (left, center, right). -/
structure Bump3 where
  left : Bool
  center : Bool
  right : Bool
  deriving DecidableEq, Repr

/-- core.py lines 107-111: sector bounds in degrees. -/
def BUMP_ANGLE_RANGES : List (ℚ × ℚ) := [(20, 70), (-25, 25), (-70, -25)]

/-- core.py lines 1452-1453: boundary-inclusive membership of the contact
angle (in degrees) in each of the three sector ranges. -/
def bumpFlagsOfAngle (thetaDeg : ℚ) : Bump3 :=
  { left := decide (20 ≤ thetaDeg ∧ thetaDeg ≤ 70)
    center := decide (-25 ≤ thetaDeg ∧ thetaDeg ≤ 25)
    right := decide (-70 ≤ thetaDeg ∧ thetaDeg ≤ -25) }

/-- core.py line 1455: `self.bump |= in_range`, elementwise OR. -/
def bumpOr (a b : Bump3) : Bump3 :=
  ⟨a.left || b.left, a.center || b.center, a.right || b.right⟩

/-- One shape-pair distance query against a tracked collider: the reported
minimum separation and the nearest point's polar angle (in degrees) in the
robot's local frame. -/
structure Contact where
  dist : ℚ
  angleDeg : ℚ
  deriving DecidableEq, Repr

/-- core.py lines 1419-1455: clear the bump vector, then for every live
shape-pair query with separation below BUMP_DIST, OR in the sector flags
of its contact angle. -/
def bumpUpdate (contacts : List Contact) : Bump3 :=
  contacts.foldl
    (fun b c =>
      if c.dist < BUMP_DIST then bumpOr b (bumpFlagsOfAngle c.angleDeg) else b)
    ⟨false, false, false⟩

/-! ## Object lifecycle (RoboSim, core.py lines 1633-1751) -/

/-- The kinds of entries in `RoboSim.objects`: the one Robot (constructed
at line 1644), the one Room (line 1646), and everything added later
(Box/Pylon/Ball/Wall/TapeStrips, distinguished by a tag). -/
inductive SimObjKind where
  | robot : SimObjKind
  | room : SimObjKind
  | other : ℕ → SimObjKind
  deriving DecidableEq, Repr

/-- The operations on `RoboSim.objects`:
* `addObject o` — `add_object` (line 1680) and thus `add_box`,
  `add_pylon`, `add_ball`, `add_wall`, and `add_tape_strip` with a new
  color: append `o` to the list;
* `addTapeExisting` — `add_tape_strip` with an existing color (line
  1702): mutates the existing strip, list unchanged;
* `resetInPlace` — `reset()` on the else-branch (lines 1724-1728): calls
  `reset()` on each object, list unchanged;
* `resetReload loads` — `reset(reload_svg=True)` with a cached SVG (lines
  1719-1723): `clear()` then `load_svg`, which re-adds `loads`;
* `clear` — `clear()` (line 1751): `objects[:] = [robot, room]`. -/
inductive SimOp where
  | addObject : SimObjKind → SimOp
  | addTapeExisting : SimOp
  | resetInPlace : SimOp
  | resetReload : List SimObjKind → SimOp
  | clear : SimOp

/-- Effect of one lifecycle operation on the objects list. -/
def applySimOp (objs : List SimObjKind) (op : SimOp) : List SimObjKind :=
  match op with
  | .addObject o => objs ++ [o]
  | .addTapeExisting => objs
  | .resetInPlace => objs
  | .resetReload loads => [.robot, .room] ++ loads
  | .clear => [.robot, .room]

/-- Run a sequence of lifecycle operations from the freshly-constructed
state `objects = [robot, room]` (core.py line 1652). -/
def runSimOps (ops : List SimOp) : List SimObjKind :=
  ops.foldl applySimOp [.robot, .room]

/-! ## Pose2D / odometry (Transform2D from robosim.py's robosim_core.py,
lines 168-255, the in-repo copy of the missing ursim/transform2d.py;
odometry section of Robot.sim_update, core.py lines 1396-1415) -/

/-- Transform2D: a rigid 2D transform, position plus unnormalized
heading. -/
structure Transform2D where
  x : ℝ
  y : ℝ
  angle : ℝ

/-- `Transform2D()` with no arguments: zero position, zero angle. -/
def idTransform : Transform2D := ⟨0, 0, 0⟩

/-- `transform_fwd` on another transform (`__mul__`): rotate the other's
position by this angle, translate by this position, add angles.  The
rotation entries `cos`/`sin` are passed as function parameters `rc`/`rs`
because `Real.cos` has no executable code in Lean; every theorem below
instantiates them to `Real.cos` and `Real.sin`. -/
def t2mul (rc rs : ℝ → ℝ) (a b : Transform2D) : Transform2D :=
  ⟨a.x + rc a.angle * b.x - rs a.angle * b.y,
   a.y + rs a.angle * b.x + rc a.angle * b.y,
   a.angle + b.angle⟩

/-- `inverse()`: position is the transposed rotation applied to the
negated position, angle is negated. -/
def t2inv (rc rs : ℝ → ℝ) (a : Transform2D) : Transform2D :=
  ⟨-(rc a.angle * a.x + rs a.angle * a.y),
   -(-rs a.angle * a.x + rc a.angle * a.y),
   -a.angle⟩

/-- Odometry state: `odom_pose` and `odom_tick` (cleared to identity and 0
by `Robot.initialize`, core.py lines 1066, 1069). -/
structure OdomState where
  pose : Transform2D
  tick : ℕ

/-- core.py lines 1396-1415: one tick of the odometry estimator.
`odom_tick` is incremented first; in perfect mode the pose is set to
`T_world_from_orig.inverse() * T_world_from_cur`; otherwise, only on
ticks whose (incremented) count is a multiple of ODOM_FREQUENCY, the pose
advances along its own forward axis (`matrix[:2,0] = (cos angle, sin
angle)`) and accumulates heading additively. -/
def odomSectionUpdate (rc rs : ℝ → ℝ) (perfect : Bool) (dt : ℝ)
    (orig cur : Transform2D) (linVel angVel : ℝ) (s : OdomState) :
    OdomState :=
  let tick := s.tick + 1
  if perfect then
    ⟨t2mul rc rs (t2inv rc rs orig) cur, tick⟩
  else if tick % ODOM_FREQUENCY = 0 then
    let odt := dt * (ODOM_FREQUENCY : ℝ)
    let odom_fwd := odt * linVel
    let odom_spin := odt * angVel
    ⟨⟨s.pose.x + odom_fwd * rc s.pose.angle,
      s.pose.y + odom_fwd * rs s.pose.angle,
      s.pose.angle + odom_spin⟩, tick⟩
  else
    ⟨s.pose, tick⟩

/-! ## Robot pose state across updates and reset (core.py lines
1049-1087, 1206-1207, 1713-1728) -/

/-- The pose-relevant part of Robot state: the remembered spawn pose
(`orig_position`, `orig_angle`), the rigid body's current pose, and the
odometry estimator state. -/
structure RobotSt where
  origX : ℝ
  origY : ℝ
  origAngle : ℝ
  bodyX : ℝ
  bodyY : ℝ
  bodyAngle : ℝ
  odom : OdomState

/-- `Robot.initialize(position, angle)` (core.py lines 1049-1098): record
the spawn pose, create the rigid body at that pose, and reset the
odometry pose to `Transform2D()` and the tick count to 0. -/
def robot_init (px py a : ℝ) : RobotSt :=
  ⟨px, py, a, px, py, a, ⟨idTransform, 0⟩⟩

/-- `Robot.reset()` (core.py lines 1206-1207): re-initialize at the
remembered spawn pose.  `RoboSim.reset(reload_svg=False)` reaches this
via `obj.reset()` at lines 1727-1728. -/
def robot_reset (s : RobotSt) : RobotSt :=
  robot_init s.origX s.origY s.origAngle

/-- External inputs to one simulation tick: the body pose produced by the
physics engine's step, and the inputs of the odometry section. -/
structure TickIn where
  bx : ℝ
  by' : ℝ
  ba : ℝ
  perfect : Bool
  dt : ℝ
  linVel : ℝ
  angVel : ℝ

/-- One tick as it affects `RobotSt`: `Robot.sim_update` never writes
`orig_position`/`orig_angle` (they are only assigned in `initialize`,
core.py lines 1063-1064); the body pose is whatever the physics engine
produced, and the odometry section advances per `odomSectionUpdate`. -/
def robot_sim_step (rc rs : ℝ → ℝ) (s : RobotSt) (t : TickIn) : RobotSt :=
  { origX := s.origX
    origY := s.origY
    origAngle := s.origAngle
    bodyX := t.bx
    bodyY := t.by'
    bodyAngle := t.ba
    odom := odomSectionUpdate rc rs t.perfect t.dt
      ⟨s.origX, s.origY, s.origAngle⟩ ⟨t.bx, t.by', t.ba⟩
      t.linVel t.angVel s.odom }

/-! ## Helper lemmas -/

/-- The clamp keeps magnitudes within a nonnegative limit. -/
theorem abs_clamp_abs_le (x limit : ℚ) (h : 0 ≤ limit) :
    |clamp_abs x limit| ≤ limit := by
  rw [abs_le, clamp_abs]
  exact ⟨le_min (le_max_right x (-limit)) (neg_le_self h), min_le_right _ _⟩

/-- Clamping zero to a nonnegative limit gives zero. -/
theorem clamp_abs_zero (limit : ℚ) (h : 0 ≤ limit) :
    clamp_abs 0 limit = 0 := by
  rw [clamp_abs, max_eq_left (neg_nonpos.mpr h), min_eq_left h]

/-- Every element of a controller state trace is the first component of a
`controllerStep`, so its integrator obeys the clamp bound. -/
theorem ctrlStates_integrator_bound (vN dt : ℚ) (enabled : Bool) :
    ∀ (dm : List (ℚ × ℚ)) (s s' : WheelCtrl),
      s' ∈ ctrlStates vN enabled dt dm s →
      |s'.integrator| ≤ MOTOR_VEL_INT_MAX := by
  intro dm
  induction dm with
  | nil => intro s s' h; simp only [ctrlStates, List.not_mem_nil] at h
  | cons p rest ih =>
    intro s s' h
    rw [ctrlStates, List.mem_cons] at h
    rcases h with h | h
    · subst h
      exact abs_clamp_abs_le _ _ (by norm_num [MOTOR_VEL_INT_MAX])
    · exact ih _ _ h

/-- One controller step under the stopped condition: the debounce counter
increments, and once it exceeds 5 the commanded voltage is exactly 0. -/
theorem controllerStep_stopped (vN desired measured dt : ℚ) (s : WheelCtrl)
    (hvN : 0 ≤ vN) (hd : desired = 0)
    (hm : |measured| < WHEEL_STOPPED_THRESHOLD_VEL) :
    (controllerStep vN true desired measured dt s).1.stoppedCount
      = s.stoppedCount + 1
    ∧ (5 < s.stoppedCount + 1 →
        (controllerStep vN true desired measured dt s).2 = 0) := by
  refine ⟨?_, fun hc => ?_⟩ <;> simp only [controllerStep]
  · split_ifs with h1
    · rfl
    · exact absurd ⟨hd, hm⟩ h1
  · rw [if_pos (show desired = 0 ∧ |measured| < WHEEL_STOPPED_THRESHOLD_VEL
          from ⟨hd, hm⟩),
        if_pos (show s.stoppedCount + 1 > 5 from hc), if_pos trivial]
    exact clamp_abs_zero vN hvN

/-- While the stopped condition holds on every tick up to tick `n`, the
commanded voltage at any tick past the debounce threshold is exactly 0. -/
theorem ctrlVoltages_stopped_zero (vN dt : ℚ) (hvN : 0 ≤ vN) :
    ∀ (dm : List (ℚ × ℚ)) (n : ℕ) (s : WheelCtrl),
      (∀ p ∈ dm.take (n+1),
        p.1 = 0 ∧ |p.2| < WHEEL_STOPPED_THRESHOLD_VEL) →
      n < dm.length → 5 < s.stoppedCount + (n+1) →
      (ctrlVoltages vN true dt dm s).get? n = some 0 := by
  intro dm
  induction dm with
  | nil => intro n s _ hn hc; simp at hn
  | cons p rest ih =>
    intro n s hq hn hc
    have hp := hq p (by simp)
    have hstep := controllerStep_stopped vN p.1 p.2 dt s hvN hp.1 hp.2
    match n with
    | 0 =>
      rw [ctrlVoltages]
      have hV := hstep.2 (by omega)
      simp [hV]
    | Nat.succ m =>
      rw [ctrlVoltages]
      show (ctrlVoltages vN true dt rest _).get? m = some 0
      refine ih m _ (fun q hqmem => hq q ?_) (by simpa using hn) ?_
      · rw [List.take_succ_cons, List.mem_cons]; exact Or.inr hqmem
      · rw [hstep.1] at *; omega

/-- Elementwise OR with the all-false vector is the identity. -/
theorem bumpOr_false_right (b : Bump3) :
    bumpOr b ⟨false, false, false⟩ = b := by
  cases b; simp [bumpOr]

/-- OR-absorption: if `f`'s flags are already contained in `b`, they are
contained in `b` OR anything. -/
theorem bumpOr_absorb (f b g : Bump3) (h : bumpOr f b = b) :
    bumpOr f (bumpOr b g) = bumpOr b g := by
  cases f; cases b; cases g
  simp only [bumpOr, Bump3.mk.injEq] at h ⊢
  obtain ⟨h1, h2, h3⟩ := h
  rw [← Bool.or_assoc, h1, ← Bool.or_assoc, h2, ← Bool.or_assoc, h3]
  exact ⟨rfl, rfl, rfl⟩

/-- `f`'s flags are contained in anything OR `f`. -/
theorem bumpOr_self_absorb (f b : Bump3) :
    bumpOr f (bumpOr b f) = bumpOr b f := by
  cases f; cases b
  simp [bumpOr, ← Bool.or_assoc, Bool.or_comm, Bool.or_left_comm]

/-- Folding further contacts into the bump vector never clears a flag. -/
theorem bumpUpdate_fold_mono (f : Bump3) :
    ∀ (l : List Contact) (b : Bump3), bumpOr f b = b →
      bumpOr f (l.foldl (fun b c =>
        if c.dist < BUMP_DIST then bumpOr b (bumpFlagsOfAngle c.angleDeg)
        else b) b)
      = l.foldl (fun b c =>
        if c.dist < BUMP_DIST then bumpOr b (bumpFlagsOfAngle c.angleDeg)
        else b) b := by
  intro l
  induction l with
  | nil => intro b h; simpa using h
  | cons d t ih =>
    intro b h
    rw [List.foldl_cons]
    by_cases hd : d.dist < BUMP_DIST
    · rw [if_pos hd]
      exact ih _ (bumpOr_absorb f b _ h)
    · rw [if_neg hd]
      exact ih _ h

/-- A live member contact's flags are absorbed by the bump fold from any
starting vector. -/
theorem bumpUpdate_fold_mem :
    ∀ (l : List Contact) (b : Bump3) (c : Contact), c ∈ l →
      c.dist < BUMP_DIST →
      bumpOr (bumpFlagsOfAngle c.angleDeg) (l.foldl (fun b c =>
        if c.dist < BUMP_DIST then bumpOr b (bumpFlagsOfAngle c.angleDeg)
        else b) b)
      = l.foldl (fun b c =>
        if c.dist < BUMP_DIST then bumpOr b (bumpFlagsOfAngle c.angleDeg)
        else b) b := by
  intro l
  induction l with
  | nil => intro b c hc; simp at hc
  | cons d t ih =>
    intro b c hc hdist
    rw [List.mem_cons] at hc
    rw [List.foldl_cons]
    rcases hc with hc | hc
    · subst hc
      rw [if_pos hdist]
      exact bumpUpdate_fold_mono _ t _ (bumpOr_self_absorb _ _)
    · by_cases hd : d.dist < BUMP_DIST
      · rw [if_pos hd]; exact ih _ c hc hdist
      · rw [if_neg hd]; exact ih _ c hc hdist

/-! ## Claim theorems -/

/-- C1: evaluation of the wheel-ground coupling step at a concrete input
(body mass 2.5 kg, dt = 0.01 s, wheel target speed 0.1 m/s, body at rest,
zero force noise).  The unclamped force is F = 12.5 N and the clamp bound
is 2 N, yet the code applies the unclamped force F to the body, feeds
back torque from -F, and records skid = Fclamp - F = -10.5 N instead of
F - Fclamp = 10.5 N: the claim (and the spec) describe the clamped
coupling, the code does not implement it. -/
theorem wheelGround_applies_unclamped :
    (wheelGroundStep (5/2) (1/100) (1/10) 0 0).F = 25/2
    ∧ (wheelGroundStep (5/2) (1/100) (1/10) 0 0).Fclamp = 2
    ∧ (wheelGroundStep (5/2) (1/100) (1/10) 0 0).applied = 25/2
    ∧ (wheelGroundStep (5/2) (1/100) (1/10) 0 0).applied
        ≠ (wheelGroundStep (5/2) (1/100) (1/10) 0 0).Fclamp
    ∧ (wheelGroundStep (5/2) (1/100) (1/10) 0 0).skid = -(21/2)
    ∧ (wheelGroundStep (5/2) (1/100) (1/10) 0 0).skid
        ≠ (wheelGroundStep (5/2) (1/100) (1/10) 0 0).F
          - (wheelGroundStep (5/2) (1/100) (1/10) 0 0).Fclamp
    ∧ (wheelGroundStep (5/2) (1/100) (1/10) 0 0).torqueForceArg
        ≠ -(wheelGroundStep (5/2) (1/100) (1/10) 0 0).Fclamp := by
  norm_num [wheelGroundStep, clamp_abs, WHEEL_FORCE_MAX]

/-- C9: the IIR filter step returns the sample unchanged in bypass mode
while still pushing the sample onto both histories (so the state is as if
the sample had been both input and output), and in filtering mode returns
`dot B inputs - dot A outputs` over the shifted input history and the
previous output history. -/
theorem iir_filter_step_spec (meas : ℚ) (inputs outputs B A : List ℚ)
    (_hB : inputs.length = B.length) (_hA : outputs.length = A.length) :
    (iir_filter meas inputs outputs false B A).1 = meas
    ∧ (iir_filter meas inputs outputs false B A).2.1 = shift_in meas inputs
    ∧ (iir_filter meas inputs outputs false B A).2.2 = shift_in meas outputs
    ∧ (iir_filter meas inputs outputs true B A).1
        = dotq B (shift_in meas inputs) - dotq A outputs
    ∧ (iir_filter meas inputs outputs true B A).2.1 = shift_in meas inputs
    ∧ (iir_filter meas inputs outputs true B A).2.2
        = shift_in (dotq B (shift_in meas inputs) - dotq A outputs) outputs :=
  ⟨rfl, rfl, rfl, rfl, rfl, rfl⟩

/-- C9 witness: a bypassed step at a concrete input returns the sample. -/
theorem iir_filter_step_spec_witness :
    (iir_filter 1 [0, 0] [0] false [2, 3] [4]).1 = 1 :=
  (iir_filter_step_spec 1 [0, 0] [0] [2, 3] [4] rfl rfl).1

/-- C10: wheel-speed measurement noise is gated on the signed true wheel
target speed being strictly above ODOM_NOISE_THRESHOLD_VEL; at or below
the threshold — in particular for every negative (reverse) speed — the
measured value equals the true target speed exactly. -/
theorem odom_meas_noise_gate (tgt noise : ℚ) :
    (tgt ≤ ODOM_NOISE_THRESHOLD_VEL → odom_wheel_vel_meas tgt noise = tgt)
    ∧ (ODOM_NOISE_THRESHOLD_VEL < tgt →
        odom_wheel_vel_meas tgt noise = tgt + noise)
    ∧ (tgt < 0 → odom_wheel_vel_meas tgt noise = tgt) := by
  refine ⟨fun h => ?_, fun h => ?_, fun h => ?_⟩
  · rw [odom_wheel_vel_meas, if_neg (not_lt.mpr h)]
  · rw [odom_wheel_vel_meas, if_pos h]
  · rw [odom_wheel_vel_meas, if_neg (not_lt.mpr (le_trans h.le (by norm_num [ODOM_NOISE_THRESHOLD_VEL])))]

/-- C10 witness: a reverse speed of -1 m/s gets no noise despite a large
noise draw. -/
theorem odom_meas_noise_gate_witness :
    odom_wheel_vel_meas (-1) 7 = -1 :=
  (odom_meas_noise_gate (-1) 7).2.2 (by norm_num)

/-- C2: after every controller update the integrator carries
`clamp_abs (old + error*dt) MOTOR_VEL_INT_MAX`, hence its magnitude is at
most MOTOR_VEL_INT_MAX; the update is identical whether motors are
enabled or disabled, and the bound holds at every state of every input
trace. -/
theorem wheel_integrator_bound (vN desired measured dt i0 : ℚ) (c0 : ℕ)
    (enabled : Bool) (_hdt : 0 < dt) :
    |(controllerStep vN enabled desired measured dt ⟨i0, c0⟩).1.integrator|
        ≤ MOTOR_VEL_INT_MAX
    ∧ (controllerStep vN enabled desired measured dt ⟨i0, c0⟩).1.integrator
        = clamp_abs (i0 + (desired - measured) * dt) MOTOR_VEL_INT_MAX
    ∧ (controllerStep vN true desired measured dt ⟨i0, c0⟩).1.integrator
        = (controllerStep vN false desired measured dt ⟨i0, c0⟩).1.integrator
    ∧ ∀ (dm : List (ℚ × ℚ)) (s' : WheelCtrl),
        s' ∈ ctrlStates vN enabled dt dm ⟨i0, c0⟩ →
        |s'.integrator| ≤ MOTOR_VEL_INT_MAX := by
  refine ⟨?_, rfl, rfl, fun dm s' h => ?_⟩
  · exact abs_clamp_abs_le _ _ (by norm_num [MOTOR_VEL_INT_MAX])
  · exact ctrlStates_integrator_bound vN dt enabled dm ⟨i0, c0⟩ s' h

/-- C2 witness: the bound at a concrete input with a large sustained
error. -/
theorem wheel_integrator_bound_witness :
    |(controllerStep 6 true 0 100 1 ⟨0, 0⟩).1.integrator|
      ≤ MOTOR_VEL_INT_MAX :=
  (wheel_integrator_bound 6 0 100 1 0 0 true (by norm_num)).1

/-- C3 counterexample to the claim as stated: motors enabled, stopped-tick
count 0, desired held at exactly 0 on all seven ticks, measured below
0.15 m/s on the first six ticks (so the debounce fires and tick 6's
voltage is 0), but measured is 0.2 m/s on tick 7: the code resets the
stopped-tick count there and commands a nonzero voltage (-6 V with the
modelled 6 V nominal bound) even though the desired wheel speed never
became nonzero. -/
theorem stall_debounce_claim_counterexample :
    (∀ p ∈ [((0:ℚ), (0:ℚ)), (0, 0), (0, 0), (0, 0), (0, 0), (0, 0),
            (0, 1/5)], p.1 = 0)
    ∧ (∀ p ∈ [((0:ℚ), (0:ℚ)), (0, 0), (0, 0), (0, 0), (0, 0), (0, 0)],
        p.1 = 0 ∧ |p.2| < WHEEL_STOPPED_THRESHOLD_VEL)
    ∧ (ctrlVoltages V_nominal_spec true (1/100)
        [((0:ℚ), (0:ℚ)), (0, 0), (0, 0), (0, 0), (0, 0), (0, 0), (0, 1/5)]
        ⟨0, 0⟩).get? 5 = some 0
    ∧ (ctrlVoltages V_nominal_spec true (1/100)
        [((0:ℚ), (0:ℚ)), (0, 0), (0, 0), (0, 0), (0, 0), (0, 0), (0, 1/5)]
        ⟨0, 0⟩).get? 6 = some (-6)
    ∧ some (-6 : ℚ) ≠ some (0 : ℚ) := by
  refine ⟨by simp, by norm_num [WHEEL_STOPPED_THRESHOLD_VEL], ?_, ?_, by norm_num⟩
    <;> norm_num [ctrlVoltages, controllerStep, clamp_abs, V_nominal_spec,
          WHEEL_STOPPED_THRESHOLD_VEL, MOTOR_VEL_KP, MOTOR_VEL_KI,
          MOTOR_VEL_INT_MAX, abs_eq_max_neg, max_def, min_def]

/-- C3 (amended): with motors enabled and the stopped-tick count starting
at 0, if desired stays exactly 0 and measured stays below 0.15 m/s in
magnitude on every tick up to tick n+1, with n+1 at least 6, then the
commanded (pre-filter) voltage on tick n+1 is exactly 0 — i.e. voltage is
0 from the 6th tick onward for as long as the stopped condition (desired
zero and measured below threshold) continues to hold. -/
theorem stall_debounce_voltage_zero (vN dt i0 : ℚ) (hvN : 0 ≤ vN)
    (dm : List (ℚ × ℚ)) (n : ℕ)
    (hq : ∀ p ∈ dm.take (n+1),
      p.1 = 0 ∧ |p.2| < WHEEL_STOPPED_THRESHOLD_VEL)
    (h6 : 5 ≤ n) (hn : n < dm.length) :
    (ctrlVoltages vN true dt dm ⟨i0, 0⟩).get? n = some 0 :=
  ctrlVoltages_stopped_zero vN dt hvN dm n ⟨i0, 0⟩ hq hn (by omega)

/-- C3 witness: six stopped ticks from a fresh controller give voltage 0
on the 6th tick. -/
theorem stall_debounce_voltage_zero_witness :
    (ctrlVoltages 6 true (1/100) (List.replicate 6 ((0:ℚ), (0:ℚ)))
      ⟨0, 0⟩).get? 5 = some 0 :=
  stall_debounce_voltage_zero 6 (1/100) 0 (by norm_num) _ 5
    (by norm_num [WHEEL_STOPPED_THRESHOLD_VEL]) (by norm_num) (by norm_num)

/-- C4: in perfect-odometry mode the odometry pose after every tick is
exactly `T_world_from_orig.inverse() * T_world_from_cur`, the relative
transform from the spawn pose to the current ground-truth body pose,
independent of the tick count, the decimation phase, the dt, and the
(noisy) measured wheel velocities. -/
theorem perfect_odometry_exact (dt linVel angVel : ℝ)
    (orig cur : Transform2D) (s : OdomState) :
    (odomSectionUpdate Real.cos Real.sin true dt orig cur linVel angVel
        s).pose
      = t2mul Real.cos Real.sin (t2inv Real.cos Real.sin orig) cur :=
  rfl

/-- C5: with perfect odometry off, each tick increments the odometry tick
counter (which restarts at 0 on robot initialization), and the odometry
pose is left exactly unchanged whenever the incremented tick count is not
a multiple of ODOM_FREQUENCY = 4: the pose can change only on ticks
4, 8, 12, .... -/
theorem odometry_decimation (dt linVel angVel : ℝ)
    (orig cur : Transform2D) (s : OdomState) :
    ODOM_FREQUENCY = 4
    ∧ (odomSectionUpdate Real.cos Real.sin false dt orig cur linVel angVel
        s).tick = s.tick + 1
    ∧ ((s.tick + 1) % 4 ≠ 0 →
        (odomSectionUpdate Real.cos Real.sin false dt orig cur linVel
          angVel s).pose = s.pose)
    ∧ ((odomSectionUpdate Real.cos Real.sin false dt orig cur linVel
          angVel s).pose ≠ s.pose → (s.tick + 1) % 4 = 0) := by
  have hfreq : ODOM_FREQUENCY = 4 := rfl
  have htick : (odomSectionUpdate Real.cos Real.sin false dt orig cur
      linVel angVel s).tick = s.tick + 1 := by
    rw [odomSectionUpdate]
    split_ifs <;> rfl
  have hpose : (s.tick + 1) % 4 ≠ 0 →
      (odomSectionUpdate Real.cos Real.sin false dt orig cur linVel angVel
        s).pose = s.pose := by
    intro h
    rw [odomSectionUpdate, if_neg (by simp), if_neg (by rw [hfreq] at *; exact h)]
  exact ⟨hfreq, htick, hpose, fun hne => by
    by_contra h
    exact hne (hpose h)⟩

/-- C5 witness: on the first tick after initialization (tick 1, not a
multiple of 4) the odometry pose is unchanged. -/
theorem odometry_decimation_witness :
    (odomSectionUpdate Real.cos Real.sin false 1 idTransform idTransform
      1 1 ⟨idTransform, 0⟩).pose = idTransform :=
  (odometry_decimation 1 1 1 idTransform idTransform
    ⟨idTransform, 0⟩).2.2.1 (by norm_num)

/-- C6: every live contact (separation below BUMP_DIST) sets the bump
flag of each sector whose boundary-inclusive range contains its angle
(the flags of its angle are absorbed by the final bump vector); an angle
exactly on the shared boundary -25° sets both the center and the right
sector; and an angle outside all three ranges yields no flags, so ORing
it in changes nothing. -/
theorem bump_sector_partition :
    (∀ (l : List Contact) (c : Contact), c ∈ l → c.dist < BUMP_DIST →
      bumpOr (bumpFlagsOfAngle c.angleDeg) (bumpUpdate l) = bumpUpdate l)
    ∧ bumpFlagsOfAngle (-25) = ⟨false, true, true⟩
    ∧ (∀ θ : ℚ, ¬(20 ≤ θ ∧ θ ≤ 70) → ¬(-25 ≤ θ ∧ θ ≤ 25) →
        ¬(-70 ≤ θ ∧ θ ≤ -25) →
        bumpFlagsOfAngle θ = ⟨false, false, false⟩
        ∧ ∀ b : Bump3, bumpOr b (bumpFlagsOfAngle θ) = b) := by
  refine ⟨?_, by norm_num [bumpFlagsOfAngle], fun θ h1 h2 h3 => ?_⟩
  · intro l c hc hdist
    rw [bumpUpdate]
    exact bumpUpdate_fold_mem l _ c hc hdist
  · have hflags : bumpFlagsOfAngle θ = ⟨false, false, false⟩ := by
      simp only [bumpFlagsOfAngle, Bump3.mk.injEq, decide_eq_false_iff_not]
      exact ⟨h1, h2, h3⟩
    exact ⟨hflags, fun b => by rw [hflags]; exact bumpOr_false_right b⟩

/-- C6 witness: a touching contact (distance 0) exactly on the shared
boundary -25° is absorbed by the tick's bump vector. -/
theorem bump_sector_partition_witness :
    bumpOr (bumpFlagsOfAngle (-25)) (bumpUpdate [⟨0, -25⟩])
      = bumpUpdate [⟨0, -25⟩] :=
  bump_sector_partition.1 [⟨0, -25⟩] ⟨0, -25⟩ (by simp)
    (by norm_num [BUMP_DIST])

/-- C7: starting from the freshly constructed `objects = [robot, room]`,
after any sequence of add, tape-append, reset (in place or with SVG
reload), and clear operations, the first object is still the Robot and
the second is still the Room. -/
theorem objects_invariant (ops : List SimOp) :
    (runSimOps ops).get? 0 = some SimObjKind.robot
    ∧ (runSimOps ops).get? 1 = some SimObjKind.room := by
  have aux : ∀ (ops' : List SimOp) (t : List SimObjKind), ∃ t2,
      ops'.foldl applySimOp (SimObjKind.robot :: SimObjKind.room :: t)
        = SimObjKind.robot :: SimObjKind.room :: t2 := by
    intro ops'
    induction ops' with
    | nil => exact fun t => ⟨t, rfl⟩
    | cons op rest ih =>
      intro t
      rw [List.foldl_cons]
      match op with
      | .addObject o =>
        have : applySimOp (SimObjKind.robot :: SimObjKind.room :: t)
            (.addObject o)
            = SimObjKind.robot :: SimObjKind.room :: (t ++ [o]) := rfl
        rw [this]; exact ih (t ++ [o])
      | .addTapeExisting => exact ih t
      | .resetInPlace => exact ih t
      | .resetReload loads => exact ih loads
      | .clear => exact ih []
  obtain ⟨t2, ht⟩ := aux ops []
  rw [runSimOps, ht]
  exact ⟨rfl, rfl⟩

/-- C8: spawn the robot at position (1,2) with angle 0; after any
sequence of simulation ticks (arbitrary physics outcomes and odometry
inputs), reset restores the rigid body pose exactly to (1,2,0) and sets
the odometry pose to the identity transform. -/
theorem reset_restores_spawn (ins : List TickIn) :
    (robot_reset (ins.foldl (robot_sim_step Real.cos Real.sin)
        (robot_init 1 2 0))).bodyX = 1
    ∧ (robot_reset (ins.foldl (robot_sim_step Real.cos Real.sin)
        (robot_init 1 2 0))).bodyY = 2
    ∧ (robot_reset (ins.foldl (robot_sim_step Real.cos Real.sin)
        (robot_init 1 2 0))).bodyAngle = 0
    ∧ (robot_reset (ins.foldl (robot_sim_step Real.cos Real.sin)
        (robot_init 1 2 0))).odom.pose = idTransform
    ∧ (robot_reset (ins.foldl (robot_sim_step Real.cos Real.sin)
        (robot_init 1 2 0))).odom.tick = 0 := by
  have aux : ∀ (l : List TickIn) (s : RobotSt),
      (l.foldl (robot_sim_step Real.cos Real.sin) s).origX = s.origX
      ∧ (l.foldl (robot_sim_step Real.cos Real.sin) s).origY = s.origY
      ∧ (l.foldl (robot_sim_step Real.cos Real.sin) s).origAngle
          = s.origAngle := by
    intro l
    induction l with
    | nil => exact fun s => ⟨rfl, rfl, rfl⟩
    | cons t rest ih =>
      intro s
      rw [List.foldl_cons]
      exact ih (robot_sim_step Real.cos Real.sin s t)
  obtain ⟨hx, hy, ha⟩ := aux ins (robot_init 1 2 0)
  exact ⟨hx, hy, ha, rfl, rfl⟩
